import Mathlib

/-
Shallow embedding of the clapy command-line parsing library
(src/clapy/argument.py and src/clapy/command.py).

Python values flowing through the parser (`Any`) are modelled by the
inductive `PyVal`; Python's `None` is `PyVal.none`.  Python lists that are
mutated in place (`del args[i]`, `del args[start:i]`) are modelled by
explicit state passing: each consuming function returns the updated list.
A slice `subarg_lists[k:]` shares its inner list objects with the original,
so mutation of inner lists is modelled by `take k ++ updatedSuffix`.
`ClapyParsingError` propagation, `sys.exit` on help, and `AssertionError` /
`TypeError` crashes are modelled by the `PErr` sum; `Command.parse_from`
maps them to a `ParseOutcome` mirroring the process-level behaviour
(the source prints the message and calls `sys.exit()` on parsing errors).
-/

namespace Clapy

inductive ArgAction where
  | set
  | append
  | storeTrue
  | storeFalse
  | count
deriving DecidableEq

inductive Nargs where
  | exact (n : Nat)
  | plus
  | star
  | rng (start stop : Nat)
deriving DecidableEq

inductive PyVal where
  | str (s : String)
  | int (n : Int)
  | bool (b : Bool)
  | tup (vs : List PyVal)
  | none

mutual

def PyVal.beq : PyVal → PyVal → Bool
  | .str a, .str b => a == b
  | .int a, .int b => a == b
  | .bool a, .bool b => a == b
  | .none, .none => true
  | .tup a, .tup b => PyVal.beqList a b
  | _, _ => false

def PyVal.beqList : List PyVal → List PyVal → Bool
  | [], [] => true
  | a :: arest, b :: brest => PyVal.beq a b && PyVal.beqList arest brest
  | _, _ => false

end

def PyVal.is_none : PyVal → Bool
  | .none => true
  | _ => false

/-- Rendering used for Python f-string interpolation of parsed values. -/
def py_str : PyVal → String
  | .str s => s
  | .int n => toString n
  | .bool b => if b then "True" else "False"
  | .tup _ => "(...)"
  | .none => "None"

/-- ParsedArg from argument.py: a parsed value tagged with its action. -/
structure ParsedArg where
  value : PyVal
  action : ArgAction

/-- The fields of `_ArgData` from argument.py that the parser reads.
`value_conv` models the `value_parser` field: it returns `Option.none`
where the Python callable raises
`ValueError`.  `valid_values` (a Python `set`) is modelled as a list; its
membership test uses Python `==`, modelled by `PyVal.beq`. -/
structure ArgData where
  id : String
  short : Option String := Option.none
  long : Option String := Option.none
  action : ArgAction := ArgAction.set
  default : PyVal := PyVal.none
  nargs : Nargs := Nargs.exact 1
  value_conv : String → Option PyVal := fun s => some (PyVal.str s)
  propagate : Bool := false
  valid_values : Option (List PyVal) := Option.none

def ArgData.is_positional (ad : ArgData) : Bool :=
  ad.short.isNone && ad.long.isNone

def ArgData.is_named (ad : ArgData) : Bool :=
  !ad.is_positional

/-- A command tree node: the parser-relevant fields of `_CommandData`.
`subcommands` is an insertion-ordered mapping name -> Command. -/
inductive Command where
  | mk (name : String) (mandatory_subcommand : Bool) (no_args_requests_help : Bool)
       (help_options : List String) (arguments : List ArgData)
       (subcommands : List (String × Command))

def Command.name : Command → String
  | .mk nm _ _ _ _ _ => nm

def Command.mandatory_subcommand : Command → Bool
  | .mk _ ms _ _ _ _ => ms

def Command.no_args_requests_help : Command → Bool
  | .mk _ _ nh _ _ _ => nh

def Command.help_options : Command → List String
  | .mk _ _ _ ho _ _ => ho

def Command.arguments : Command → List ArgData
  | .mk _ _ _ _ ar _ => ar

def Command.subcommands : Command → List (String × Command)
  | .mk _ _ _ _ _ subs => subs

/-- Result tree node (`ParsedCommand` from command.py). -/
inductive ParsedCommand where
  | mk (name : String) (parsed_arguments : List (String × ParsedArg))
       (parsed_subcommand : Option ParsedCommand)

def ParsedCommand.name : ParsedCommand → String
  | .mk nm _ _ => nm

def ParsedCommand.parsed_arguments : ParsedCommand → List (String × ParsedArg)
  | .mk _ d _ => d

def ParsedCommand.subcommand : ParsedCommand → Option ParsedCommand
  | .mk _ _ sub => sub

/-- Non-normal control flow escaping the parsing functions:
`help` is `_show_help`'s `sys.exit(0)`, `perr` a raised `ClapyParsingError`,
`crash` an `AssertionError`/`TypeError`/`KeyError` (uncatchable by
`except ClapyParsingError`). -/
inductive PErr where
  | help (cmd : String)
  | perr (msg : String)
  | crash (msg : String)
deriving DecidableEq

/-- Process-level outcome of `Command.parse_from`: either a result tree,
or the process exits (help prints and exits 0; a `ClapyParsingError` is
caught, its message printed, and `sys.exit()` called; anything else
crashes the interpreter). -/
inductive ParseOutcome where
  | ok (pc : ParsedCommand)
  | helpExit (cmd : String)
  | errorExit (msg : String)
  | crash (msg : String)

-- ===========================================================
-- Token classification (regexes from argument.py, helpers from command.py)
-- ===========================================================

/-- LONG_ALIAS_REGEX = `--[^-].+` (fullmatch; `.` excludes newline). -/
def is_long_alias_arg (s : String) : Bool :=
  match s.data with
  | '-' :: '-' :: c :: rest => c != '-' && !rest.isEmpty && rest.all (fun x => x != '\n')
  | _ => false

/-- SHORT_ALIAS_REGEX = `-[^-]` (fullmatch). -/
def is_short_alias_arg (s : String) : Bool :=
  match s.data with
  | ['-', c] => c != '-'
  | _ => false

/-- SHORT_EXPANDABLE_ALIAS_REGEX = `-(.)\1+` (fullmatch): a hyphen followed
by the same non-newline character at least twice. -/
def is_short_expandable_arg (s : String) : Bool :=
  match s.data with
  | '-' :: c :: rest => c != '\n' && !rest.isEmpty && rest.all (fun x => x == c)
  | _ => false

def is_named_arg (s : String) : Bool :=
  is_short_alias_arg s || is_long_alias_arg s || is_short_expandable_arg s

def is_positional_arg (s : String) : Bool :=
  !is_named_arg s

-- ===========================================================
-- _expand_args
-- ===========================================================

/-- Python `arg.split("=", 1)`: split at the first '='. -/
def split_first_eq : List Char → Option (List Char × List Char)
  | [] => Option.none
  | c :: rest =>
    if c = '=' then some ([], rest)
    else
      match split_first_eq rest with
      | some (a, b) => some (c :: a, b)
      | Option.none => Option.none

/-- Expansion of one token inside `_expand_args`'s loop body. -/
def expand_one (arg : String) : List String :=
  if is_named_arg arg && arg.data.contains '=' then
    match split_first_eq arg.data with
    | some (nm, v) => [String.mk nm, String.mk v]
    | Option.none => [arg]
  else if is_short_expandable_arg arg then
    (arg.data.drop 1).map (fun c => String.mk ['-', c])
  else [arg]

def expand_args : List String → List String
  | [] => []
  | a :: rest => expand_one a ++ expand_args rest

-- ===========================================================
-- Python dict helpers (insertion-ordered association lists)
-- ===========================================================

/-- `d[k] = v` on a Python dict: update in place, or append a new key. -/
def dict_insert {β : Type} : List (String × β) → String → β → List (String × β)
  | [], k, v => [(k, v)]
  | (k', v') :: rest, k, v =>
    if k' = k then (k', v) :: rest else (k', v') :: dict_insert rest k v

/-- `d.pop(k)`: remove the entry for `k`, keeping the remaining order. -/
def dict_pop {β : Type} : List (String × β) → String → List (String × β)
  | [], _ => []
  | (k', v') :: rest, k =>
    if k' = k then rest else (k', v') :: dict_pop rest k

/-- `defaultdict(list)[k].append(g)` on the consumed-values mapping. -/
def dict_append_group :
    List (String × List (List String)) → String → List String →
    List (String × List (List String))
  | [], k, g => [(k, [g])]
  | (k', gs) :: rest, k, g =>
    if k' = k then (k', gs ++ [g]) :: rest else (k', gs) :: dict_append_group rest k g

-- ===========================================================
-- _nargs_bounds and _parse_and_consume_values
-- ===========================================================

/-- `_nargs_bounds`: (min, max) with `Option.none` meaning unbounded. -/
def nargs_bounds : Nargs → Nat × Option Nat
  | .exact n => (n, some n)
  | .plus => (1, Option.none)
  | .star => (0, Option.none)
  | .rng a b => (a, some b)

def missing_values_msg (nm : String) (received expected : Nat) : String :=
  s!"Missing argument values for '{nm}'. Received {received}, expected at least {expected}."

/-- The while loop of `_parse_and_consume_values` for Set/Append actions,
walking the tokens after `start`.  Returns the consumed values; the caller
removes that many tokens from the list (`del args[start:i]`). -/
def consume_loop (minN : Nat) (maxN : Option Nat) (nm : String)
    (values : List String) : List String → Except PErr (List String)
  | [] => Except.ok values
  | a :: rest =>
    if is_named_arg a || a == "--" then
      if minN ≤ values.length then Except.ok values
      else Except.error (PErr.perr (missing_values_msg nm values.length minN))
    else
      let vs := values ++ [a]
      if maxN == some vs.length then Except.ok vs
      else consume_loop minN maxN nm vs rest

/-- `_parse_and_consume_values` restricted to the suffix `args[start:]`:
just the values (StoreTrue/StoreFalse/Count yield the literal dummy). -/
def consume_values_only (ad : ArgData) (nm : String) (tail : List String) :
    Except PErr (List String) :=
  match ad.action with
  | .storeTrue | .storeFalse | .count => Except.ok ["dummy"]
  | _ =>
    let b := nargs_bounds ad.nargs
    consume_loop b.1 b.2 nm [] tail

/-- Number of tokens `del args[start:i]` removes for the returned values. -/
def consumed_count (ad : ArgData) (values : List String) : Nat :=
  match ad.action with
  | .storeTrue | .storeFalse | .count => 0
  | _ => values.length

/-- `_parse_and_consume_values(args, start, arg_data, arg_name)`: returns
the consumed values and the list after the in-place deletion. -/
def parse_and_consume_values (args : List String) (start : Nat) (ad : ArgData)
    (nm : String) : Except PErr (List String × List String) :=
  match consume_values_only ad nm (args.drop start) with
  | Except.error e => Except.error e
  | Except.ok vs =>
      Except.ok (vs, args.take start ++ (args.drop start).drop (consumed_count ad vs))

-- ===========================================================
-- Named argument pass (_parse_and_consume_named_args)
-- ===========================================================

/-- The while loop scanning one segment for named arguments.  The position
index `i` is the length of `pref`; on a match the alias token is deleted
(`del args[i]`) and the consumed values removed, so the scan continues at
the same `pref` with the shortened remainder.  The fuel is an upper bound
on the remainder length (each step shortens it), so the zero case is
unreachable from `scan_named_loop`. -/
def scan_named_go (m : List (String × ArgData)) :
    Nat → List String → List String → List (String × List (List String)) →
    Except PErr (List String × List (String × List (List String)))
  | _, pref, [], consumed => Except.ok (pref, consumed)
  | 0, pref, rem, consumed => Except.ok (pref ++ rem, consumed)
  | Nat.succ fuel, pref, a :: rest, consumed =>
    if is_named_arg a then
      match List.lookup a m with
      | some ad =>
        match consume_values_only ad a rest with
        | Except.error e => Except.error e
        | Except.ok group =>
            scan_named_go m fuel pref (rest.drop (consumed_count ad group))
              (dict_append_group consumed a group)
      | Option.none => scan_named_go m fuel (pref ++ [a]) rest consumed
    else scan_named_go m fuel (pref ++ [a]) rest consumed

def scan_named_loop (m : List (String × ArgData)) (args : List String)
    (consumed : List (String × List (List String))) :
    Except PErr (List String × List (String × List (List String))) :=
  scan_named_go m args.length [] args consumed

/-- The `for args in arg_lists` loop of the named pass, threading the
consumed-values mapping through all segments. -/
def scan_named_lists (m : List (String × ArgData)) :
    List (List String) → List (String × List (List String)) →
    Except PErr (List (List String) × List (String × List (List String)))
  | [], consumed => Except.ok ([], consumed)
  | l :: rest, consumed =>
    match scan_named_loop m l consumed with
    | Except.error e => Except.error e
    | Except.ok (l', consumed') =>
      match scan_named_lists m rest consumed' with
      | Except.error e => Except.error e
      | Except.ok (rest', consumed'') => Except.ok (l' :: rest', consumed'')

/-- Builds `named_args_ids_map` and `named_args_map` from the command's
arguments (in declaration order). -/
def add_named_arg (pp : Bool)
    (maps : List (String × ArgData) × List (String × ArgData)) (ad : ArgData) :
    List (String × ArgData) × List (String × ArgData) :=
  if !ad.is_named then maps
  else if pp && !ad.propagate then maps
  else
    let ids := dict_insert maps.1 ad.id ad
    let am :=
      match ad.long with
      | some l => dict_insert maps.2 l ad
      | Option.none => maps.2
    let am :=
      match ad.short with
      | some s => dict_insert am s ad
      | Option.none => am
    (ids, am)

def build_named_maps (arguments : List ArgData) (pp : Bool) :
    List (String × ArgData) × List (String × ArgData) :=
  arguments.foldl (add_named_arg pp) ([], [])

def repeated_arg_msg (al : String) : String :=
  s!"Repeated argument '{al}'."

def wrong_value_msg (nm : String) (flattened : List String) : String :=
  let vals := String.intercalate ", " flattened
  let plural := if flattened.length > 1 then "s" else ""
  s!"Wrong value{plural} type for argument '{nm}'. Wrong values: {vals}."

def invalid_named_msg (al : String) (v : PyVal) (vvs : String) : String :=
  let vs := py_str v
  s!"Invalid value for named argument '{al}': '{vs}'. (Valid values: {vvs})"

/-- Python `", ".join(arg_data.valid_values)`: succeeds only when every
member of the set is a `str` (otherwise the interpreter raises TypeError). -/
def join_str_set : List PyVal → Option String
  | [] => some ""
  | vv =>
    match all_strs vv with
    | some ss => some (String.intercalate ", " ss)
    | Option.none => Option.none
where
  all_strs : List PyVal → Option (List String)
    | [] => some []
    | PyVal.str s :: rest =>
      match all_strs rest with
      | some ss => some (s :: ss)
      | Option.none => Option.none
    | _ => Option.none

/-- `tuple(map(arg_data.value_conv, flattened_values))`:
`Option.none` when some element raises ValueError. -/
def map_converter (f : String → Option PyVal) : List String → Option (List PyVal)
  | [] => some []
  | s :: rest =>
    match f s with
    | some v =>
      match map_converter f rest with
      | some vs => some (v :: vs)
      | Option.none => Option.none
    | Option.none => Option.none

/-- First parsed value failing `v in arg_data.valid_values` (Python `==`). -/
def find_invalid (vv : List PyVal) : List PyVal → Option PyVal
  | [] => Option.none
  | v :: rest =>
    if vv.any (fun x => PyVal.beq v x) then find_invalid vv rest else some v

/-- Collapse to a scalar when a single value resulted, else a tuple. -/
def pack_values (vs : List PyVal) (a : ArgAction) : ParsedArg :=
  match vs with
  | [v] => ⟨v, a⟩
  | _ => ⟨PyVal.tup vs, a⟩

/-- The `match arg_data.action` block processing one alias's accumulated
value groups (command.py lines 465-503). -/
def collect_parsed_arg (al : String) (ad : ArgData)
    (groups : List (List String)) : Except PErr ParsedArg :=
  match ad.action with
  | .storeTrue | .storeFalse =>
      Except.ok ⟨PyVal.bool (ad.action == ArgAction.storeTrue), ad.action⟩
  | .count => Except.ok ⟨PyVal.int groups.length, ad.action⟩
  | _ =>
    if groups.length > 1 && ad.action == ArgAction.set then
      Except.error (PErr.perr (repeated_arg_msg al))
    else
      let flattened := groups.flatten
      match map_converter ad.value_conv flattened with
      | Option.none => Except.error (PErr.perr (wrong_value_msg al flattened))
      | some parsed_values =>
        match ad.valid_values with
        | some vv =>
          match join_str_set vv with
          | Option.none => Except.error (PErr.crash "TypeError: join of non-str valid values")
          | some vvs =>
            match find_invalid vv parsed_values with
            | some v => Except.error (PErr.perr (invalid_named_msg al v vvs))
            | Option.none => Except.ok (pack_values parsed_values ad.action)
        | Option.none => Except.ok (pack_values parsed_values ad.action)

/-- The `for alias in consumed_values` loop: repeated-id check, per-alias
processing, popping the id from the ids map, storing the result. -/
def process_consumed (alias_map : List (String × ArgData)) :
    List (String × List (List String)) → List (String × ArgData) →
    List (String × ParsedArg) →
    Except PErr (List (String × ParsedArg) × List (String × ArgData))
  | [], ids_map, parsed => Except.ok (parsed, ids_map)
  | (al, groups) :: rest, ids_map, parsed =>
    match List.lookup al alias_map with
    | Option.none => Except.error (PErr.crash "KeyError")
    | some ad =>
      if (List.lookup ad.id ids_map).isNone then
        Except.error (PErr.perr (repeated_arg_msg al))
      else
        match collect_parsed_arg al ad groups with
        | Except.error e => Except.error e
        | Except.ok pa =>
          process_consumed alias_map rest (dict_pop ids_map ad.id)
            (dict_insert parsed ad.id pa)

def missing_named_msg (ad : ArgData) : String :=
  let l := ad.long.getD ""
  let sep := if ad.long.isSome && ad.short.isSome then "/" else ""
  let s := ad.short.getD ""
  s!"Missing required named argument '{l}{sep}{s}'."

/-- Default handling for a named argument never seen on the command line
(command.py lines 511-533). -/
def default_parsed_arg (ad : ArgData) : Except PErr ParsedArg :=
  match ad.action with
  | .set | .append =>
    if !ad.default.is_none then Except.ok ⟨ad.default, ad.action⟩
    else Except.error (PErr.perr (missing_named_msg ad))
  | .storeTrue | .storeFalse =>
    Except.ok ⟨PyVal.bool (ad.action != ArgAction.storeTrue), ad.action⟩
  | .count => Except.ok ⟨PyVal.int 0, ad.action⟩

def apply_defaults :
    List (String × ArgData) → List (String × ParsedArg) →
    Except PErr (List (String × ParsedArg))
  | [], parsed => Except.ok parsed
  | (_, ad) :: rest, parsed =>
    match default_parsed_arg ad with
    | Except.error e => Except.error e
    | Except.ok pa => apply_defaults rest (dict_insert parsed ad.id pa)

/-- `Command._parse_and_consume_named_args`: returns the updated segments
and the mapping arg-id -> ParsedArg. -/
def Command.parse_and_consume_named_args (c : Command)
    (arg_lists : List (List String)) (parse_only_propagated : Bool) :
    Except PErr (List (List String) × List (String × ParsedArg)) :=
  let maps := build_named_maps c.arguments parse_only_propagated
  match scan_named_lists maps.2 arg_lists [] with
  | Except.error e => Except.error e
  | Except.ok (lists', consumed) =>
    match process_consumed maps.2 consumed maps.1 [] with
    | Except.error e => Except.error e
    | Except.ok (parsed, remaining_ids) =>
      match apply_defaults remaining_ids parsed with
      | Except.error e => Except.error e
      | Except.ok parsed' => Except.ok (lists', parsed')

-- ===========================================================
-- Positional argument pass (_parse_and_consume_positional_args)
-- ===========================================================

def build_positional_list : List ArgData → Bool → List ArgData
  | [], _ => []
  | ad :: rest, pp =>
    if !ad.is_positional then build_positional_list rest pp
    else if pp && !ad.propagate then build_positional_list rest pp
    else ad :: build_positional_list rest pp

/-- The while loop scanning one segment for positional arguments.  After a
consumption at index `arg_i` (the length of `pref`) the source still runs
`arg_i += 1`, stepping over whatever token slid into that position; the
fuel is an upper bound on the remainder length, so the zero case is
unreachable from `scan_positional_loop`. -/
def scan_positional_go (pdata : List ArgData) :
    Nat → Nat → List String → List String → List (List String) →
    Except PErr (List String × Nat × List (List String))
  | _, pIdx, pref, [], consumed => Except.ok (pref, pIdx, consumed)
  | 0, pIdx, pref, rem, consumed => Except.ok (pref ++ rem, pIdx, consumed)
  | Nat.succ fuel, pIdx, pref, a :: rest, consumed =>
    if h : pIdx < pdata.length then
      if is_positional_arg a then
        let ad := pdata.get ⟨pIdx, h⟩
        match consume_values_only ad ad.id (a :: rest) with
        | Except.error e => Except.error e
        | Except.ok group =>
          match (a :: rest).drop (consumed_count ad group) with
          | [] => Except.ok (pref, pIdx + 1, consumed ++ [group])
          | b :: rest2 =>
            scan_positional_go pdata fuel (pIdx + 1) (pref ++ [b]) rest2
              (consumed ++ [group])
      else scan_positional_go pdata fuel pIdx (pref ++ [a]) rest consumed
    else Except.ok (pref ++ (a :: rest), pIdx, consumed)

def scan_positional_loop (pdata : List ArgData) (pIdx : Nat) (args : List String)
    (consumed : List (List String)) :
    Except PErr (List String × Nat × List (List String)) :=
  scan_positional_go pdata args.length pIdx [] args consumed

def scan_positional_lists (pdata : List ArgData) :
    List (List String) → Nat → List (List String) →
    Except PErr (List (List String) × Nat × List (List String))
  | [], pIdx, consumed => Except.ok ([], pIdx, consumed)
  | l :: rest, pIdx, consumed =>
    match scan_positional_loop pdata pIdx l consumed with
    | Except.error e => Except.error e
    | Except.ok (l', pIdx', consumed') =>
      match scan_positional_lists pdata rest pIdx' consumed' with
      | Except.error e => Except.error e
      | Except.ok (rest', pIdx'', consumed'') =>
        Except.ok (l' :: rest', pIdx'', consumed'')

def missing_positional_msg (id : String) : String :=
  s!"Missing required positional argument: '{id}'."

/-- Python `f"... {values}."` renders the list with repr quotes. -/
def py_list_repr (xs : List String) : String :=
  let quoted := xs.map (fun s => "'" ++ s ++ "'")
  let inner := String.intercalate ", " quoted
  "[" ++ inner ++ "]"

def wrong_value_pos_msg (id : String) (values : List String) : String :=
  let vals := py_list_repr values
  let plural := if values.length > 1 then "s" else ""
  s!"Wrong value{plural} type for argument '{id}'. Wrong values: {vals}."

def invalid_positional_msg (id : String) (v : PyVal) (vvs : String) : String :=
  let vs := py_str v
  s!"Invalid value for positional argument '{id}': '{vs}'. (Valid values: {vvs})"

/-- One iteration of the `zip_longest` result loop (command.py lines
591-626): positional arguments must have the Set action (assert), an
unconsumed argument falls back to its default or fails, otherwise the
values are converted and checked. -/
def assemble_one (ad : ArgData) (values : Option (List String)) :
    Except PErr ParsedArg :=
  if ad.action != ArgAction.set then Except.error (PErr.crash "AssertionError") else
  match values with
  | Option.none =>
    if !ad.default.is_none then Except.ok ⟨ad.default, ad.action⟩
    else Except.error (PErr.perr (missing_positional_msg ad.id))
  | some vals =>
    match map_converter ad.value_conv vals with
    | Option.none => Except.error (PErr.perr (wrong_value_pos_msg ad.id vals))
    | some parsed_values =>
      match ad.valid_values with
      | some vv =>
        match join_str_set vv with
        | Option.none => Except.error (PErr.crash "TypeError: join of non-str valid values")
        | some vvs =>
          match find_invalid vv parsed_values with
          | some v => Except.error (PErr.perr (invalid_positional_msg ad.id v vvs))
          | Option.none => Except.ok (pack_values parsed_values ad.action)
      | Option.none => Except.ok (pack_values parsed_values ad.action)

def assemble_positional :
    List ArgData → List (List String) → List (String × ParsedArg) →
    Except PErr (List (String × ParsedArg))
  | [], [], parsed => Except.ok parsed
  | [], _ :: _, parsed =>
    -- zip_longest would yield arg_data = None; the attribute access crashes
    let _ := parsed
    Except.error (PErr.crash "AttributeError")
  | ad :: rest, [], parsed =>
    match assemble_one ad Option.none with
    | Except.error e => Except.error e
    | Except.ok pa => assemble_positional rest [] (dict_insert parsed ad.id pa)
  | ad :: rest, v :: vrest, parsed =>
    match assemble_one ad (some v) with
    | Except.error e => Except.error e
    | Except.ok pa => assemble_positional rest vrest (dict_insert parsed ad.id pa)

/-- `Command._parse_and_consume_positional_args`. -/
def Command.parse_and_consume_positional_args (c : Command)
    (arg_lists : List (List String)) (parse_only_propagated : Bool) :
    Except PErr (List (List String) × List (String × ParsedArg)) :=
  if arg_lists.isEmpty then Except.ok (arg_lists, []) else
  let pdata := build_positional_list c.arguments parse_only_propagated
  match scan_positional_lists pdata arg_lists 0 [] with
  | Except.error e => Except.error e
  | Except.ok (lists', _, consumed) =>
    match assemble_positional pdata consumed [] with
    | Except.error e => Except.error e
    | Except.ok parsed => Except.ok (lists', parsed)

-- ===========================================================
-- Command-path discovery (_discover_command_path)
-- ===========================================================

/-- The token scan of `_discover_command_path`.  The slice
`args[last_subcommand_pos + 1 : i]` is modelled by accumulating the
current segment: named tokens not triggering help and positional tokens
not naming a subcommand stay in the segment; a subcommand name closes it. -/
def discover_loop (earlier : List Command) (last : Command)
    (lists : List (List String)) (seg : List String) :
    List String → Except PErr (List Command × List (List String))
  | [] => Except.ok (earlier ++ [last], lists ++ [seg])
  | a :: rest =>
    if is_named_arg a then
      if last.help_options.contains a then Except.error (PErr.help last.name)
      else discover_loop earlier last lists (seg ++ [a]) rest
    else
      match List.lookup a last.subcommands with
      | some sub => discover_loop (earlier ++ [last]) sub (lists ++ [seg]) [] rest
      | Option.none => discover_loop earlier last lists (seg ++ [a]) rest

def no_args_msg (nm : String) : String :=
  s!"No arguments supplied for command '{nm}'."

def mandatory_msg (nm opts : String) : String :=
  s!"Mandatory subcommand expected for command '{nm}'. Options: {opts}"

/-- The `for i, args_list in enumerate(subarg_lists)` empty-segment check. -/
def check_no_args : List (Command × List String) → Except PErr Unit
  | [] => Except.ok ()
  | (c, l) :: rest =>
    if l.isEmpty then
      if c.no_args_requests_help then Except.error (PErr.help c.name)
      else Except.error (PErr.perr (no_args_msg c.name))
    else check_no_args rest

/-- `Command._discover_command_path`. -/
def Command.discover_command_path (c : Command) (args : List String) :
    Except PErr (List Command × List (List String)) :=
  match discover_loop [] c [] [] args with
  | Except.error e => Except.error e
  | Except.ok (chain, lists0) =>
    let lists := lists0.map expand_args
    if chain.length != lists.length then Except.error (PErr.crash "AssertionError") else
    match check_no_args (chain.zip lists) with
    | Except.error e => Except.error e
    | Except.ok _ =>
      match chain.getLast? with
      | Option.none => Except.error (PErr.crash "IndexError")
      | some lastc =>
        if lastc.mandatory_subcommand && !lastc.subcommands.isEmpty then
          let opts := String.intercalate ", " (lastc.subcommands.map Prod.fst)
          Except.error (PErr.perr (mandatory_msg lastc.name opts))
        else Except.ok (chain, lists)

-- ===========================================================
-- parse_from
-- ===========================================================

/-- Step 1 of `parse_from`: named arguments from the innermost command to
the root.  Iteration `i` over the reversed chain works on the slice
`subarg_lists[-(i+1):]`, whose inner lists are shared with the original,
so the updated suffix is spliced back.  Results are inserted at the front,
yielding root-to-leaf order. -/
def named_pass_loop :
    List Command → Nat → List (List String) →
    List (String × List (String × ParsedArg)) →
    Except PErr (List (List String) × List (String × List (String × ParsedArg)))
  | [], _, lists, acc => Except.ok (lists, acc)
  | cmd :: rest, i, lists, acc =>
    let k := lists.length - (i + 1)
    match cmd.parse_and_consume_named_args (lists.drop k) (i != 0) with
    | Except.error e => Except.error e
    | Except.ok (suffix', parsed) =>
      named_pass_loop rest (i + 1) (lists.take k ++ suffix') ((cmd.name, parsed) :: acc)

/-- `dict.update` of the positional results into a command's parsed dict. -/
def dict_merge (d : List (String × ParsedArg)) :
    List (String × ParsedArg) → List (String × ParsedArg)
  | [] => d
  | (k, v) :: rest => dict_merge (dict_insert d k v) rest

def update_parsed_at :
    List (String × List (String × ParsedArg)) → Nat → List (String × ParsedArg) →
    List (String × List (String × ParsedArg))
  | [], _, _ => []
  | (nm, d) :: rest, 0, upd => (nm, dict_merge d upd) :: rest
  | x :: rest, Nat.succ i, upd => x :: update_parsed_at rest i upd

/-- Step 2 of `parse_from`: positional arguments from the root to the
innermost command, each command working on the slice `subarg_lists[i:]`. -/
def positional_pass_loop (total : Nat) :
    List Command → Nat → List (List String) →
    List (String × List (String × ParsedArg)) →
    Except PErr (List (List String) × List (String × List (String × ParsedArg)))
  | [], _, lists, pchain => Except.ok (lists, pchain)
  | cmd :: rest, i, lists, pchain =>
    match cmd.parse_and_consume_positional_args (lists.drop i) (i + 1 != total) with
    | Except.error e => Except.error e
    | Except.ok (suffix', parsed) =>
      positional_pass_loop total rest (i + 1) (lists.take i ++ suffix')
        (update_parsed_at pchain i parsed)

def unknown_extra_msg (s : String) : String :=
  s!"Unknown extra arguments: '{s}'."

def first_nonempty : List (List String) → Option (List String)
  | [] => Option.none
  | l :: rest => if l.isEmpty then first_nonempty rest else some l

/-- Step 4 of `parse_from`: nest the per-command results into a chain. -/
def nest_parsed : List (String × List (String × ParsedArg)) → Option ParsedCommand
  | [] => Option.none
  | (nm, d) :: rest => some (ParsedCommand.mk nm d (nest_parsed rest))

/-- The body of `Command.parse_from` before its `except ClapyParsingError`
handler: discovery, named pass, positional pass, leftover check, nesting. -/
def Command.parse_from_inner (c : Command) (args : List String) :
    Except PErr ParsedCommand :=
  match c.discover_command_path args with
  | Except.error e => Except.error e
  | Except.ok (chain, lists) =>
    match named_pass_loop chain.reverse 0 lists [] with
    | Except.error e => Except.error e
    | Except.ok (lists2, pchain) =>
      match positional_pass_loop chain.length chain 0 lists2 pchain with
      | Except.error e => Except.error e
      | Except.ok (lists3, pchain2) =>
        match first_nonempty lists3 with
        | some l =>
          Except.error (PErr.perr (unknown_extra_msg (String.intercalate ", " l)))
        | Option.none =>
          match nest_parsed pchain2 with
          | some pc => Except.ok pc
          | Option.none => Except.error (PErr.crash "IndexError")

/-- `Command.parse_from` at process level: a raised `ClapyParsingError` is
caught, its message printed and `sys.exit()` called (the `raise e` that
would hand it to the caller is commented out in the source), help exits
the process with status 0, and other exceptions crash the interpreter. -/
def Command.parse_from (c : Command) (args : List String) : ParseOutcome :=
  match c.parse_from_inner args with
  | Except.ok pc => ParseOutcome.ok pc
  | Except.error (PErr.help n) => ParseOutcome.helpExit n
  | Except.error (PErr.perr m) => ParseOutcome.errorExit m
  | Except.error (PErr.crash m) => ParseOutcome.crash m

-- ===========================================================
-- ParsedCommand accessors
-- ===========================================================

def ParsedCommand.subcommand_name (pc : ParsedCommand) : Option String :=
  match pc.subcommand with
  | some sub => some sub.name
  | Option.none => Option.none

/-- `get_any`: returns the stored value with no checks. -/
def ParsedCommand.get_any (pc : ParsedCommand) (id : String) : Option PyVal :=
  match List.lookup id pc.parsed_arguments with
  | some pa => some pa.value
  | Option.none => Option.none

/-- `get_one`: asserts a Set/Append action, rejects tuples. -/
def ParsedCommand.get_one (pc : ParsedCommand) (id : String) :
    Except String (Option PyVal) :=
  match List.lookup id pc.parsed_arguments with
  | some pa =>
    if pa.action == ArgAction.set || pa.action == ArgAction.append then
      match pa.value with
      | PyVal.tup _ =>
        Except.error s!"Using get_one to retrieve a tuple of values from argument '{id}'. Use get_many or get_any instead."
      | v => Except.ok (some v)
    else Except.error "AssertionError"
  | Option.none => Except.ok Option.none

/-- `get_many`: asserts a Set/Append action; a scalar is rejected unless
`force`, which wraps it in a 1-tuple. -/
def ParsedCommand.get_many (pc : ParsedCommand) (id : String)
    (force : Bool := false) : Except String (Option PyVal) :=
  match List.lookup id pc.parsed_arguments with
  | some pa =>
    if pa.action == ArgAction.set || pa.action == ArgAction.append then
      match pa.value with
      | PyVal.tup vs => Except.ok (some (PyVal.tup vs))
      | v =>
        if force then Except.ok (some (PyVal.tup [v]))
        else Except.error s!"Using get_many to retrieve a single value from argument '{id}'. Use get_one, get_any or this method with 'force' instead."
    else Except.error "AssertionError"
  | Option.none => Except.ok Option.none

/-- `get_flag`: asserts a StoreTrue/StoreFalse action. -/
def ParsedCommand.get_flag (pc : ParsedCommand) (id : String) :
    Except String (Option PyVal) :=
  match List.lookup id pc.parsed_arguments with
  | some pa =>
    if pa.action == ArgAction.storeFalse || pa.action == ArgAction.storeTrue then
      Except.ok (some pa.value)
    else Except.error "AssertionError"
  | Option.none => Except.ok Option.none

/-- `get_count`: asserts the Count action. -/
def ParsedCommand.get_count (pc : ParsedCommand) (id : String) :
    Except String (Option PyVal) :=
  match List.lookup id pc.parsed_arguments with
  | some pa =>
    if pa.action == ArgAction.count then Except.ok (some pa.value)
    else Except.error "AssertionError"
  | Option.none => Except.ok Option.none

-- ===========================================================
-- Auxiliary notions used by the verification
-- ===========================================================

/-- Digits of a decimal literal accumulated left to right;
`Option.none` on any non-digit character. -/
def chars_to_nat : List Char → Nat → Option Nat
  | [], acc => some acc
  | c :: rest, acc =>
    if c.isDigit then chars_to_nat rest (acc * 10 + (c.toNat - 48))
    else Option.none

/-- A model of Python's `int` used as a `value_conv` collaborator:
`ValueError` (here `Option.none`) on a non-integer string. -/
def py_int_conv (s : String) : Option PyVal :=
  match s.data with
  | [] => Option.none
  | '-' :: rest =>
    if rest.isEmpty then Option.none
    else (chars_to_nat rest 0).map (fun n => PyVal.int (-(n : Int)))
  | cs => (chars_to_nat cs 0).map (fun n => PyVal.int (n : Int))

/-- Whether `p` occurs as a contiguous run inside the second list. -/
def chars_mention (p : List Char) : List Char → Bool
  | [] => p.isEmpty
  | c :: rest => p.isPrefixOf (c :: rest) || chars_mention p rest

/-- Whether the string `needle` occurs inside the string `hay`. -/
def mentions (needle hay : String) : Bool :=
  chars_mention needle.data hay.data

/-- The tokens `ws` are inert for the whole command tree under `c`: none
of them is a help trigger and none names a subcommand, at `c` or at any
descendant.  Path discovery then treats each of them as ordinary segment
content wherever the scan currently stands. -/
inductive IgnoresTokens (ws : List String) : Command → Prop where
  | mk : ∀ (nm : String) (ms nh : Bool) (ho : List String) (ar : List ArgData)
      (subs : List (String × Command)),
      (∀ w ∈ ws, ho.contains w = false) →
      (∀ w ∈ ws, List.lookup w subs = Option.none) →
      (∀ p ∈ subs, IgnoresTokens ws p.2) →
      IgnoresTokens ws (Command.mk nm ms nh ho ar subs)

/-- Relation between two discovery-scan results: identical errors, or the
same command chain with segment lists equal after expansion. -/
def discover_rel (r1 r2 : Except PErr (List Command × List (List String))) : Prop :=
  match r1, r2 with
  | Except.error e1, Except.error e2 => e1 = e2
  | Except.ok (c1, l1), Except.ok (c2, l2) =>
      c1 = c2 ∧ l1.map expand_args = l2.map expand_args
  | _, _ => False

-- ===========================================================
-- Concrete command trees used to settle the individual claims
-- ===========================================================

def default_help_opts : List String := ["--help", "-h"]

/-- C1: a command with one required Set argument `--num`. -/
def c1_cmd : Command :=
  Command.mk "c1" true true default_help_opts [{ id := "num", long := some "--num" }] []

/-- C2: an Append argument reachable as `-t` or `--tag`. -/
def c2_arg : ArgData :=
  { id := "tag", long := some "--tag", short := some "-t", action := ArgAction.append }

def c2_cmd : Command :=
  Command.mk "c2" true true default_help_opts [c2_arg] []

/-- C3: a Set argument reachable as `-n` or `--num` with an int converter. -/
def c3_arg : ArgData :=
  { id := "num", long := some "--num", short := some "-n", value_conv := py_int_conv }

def c3_cmd : Command :=
  Command.mk "c3" true true default_help_opts [c3_arg] []

/-- C4: a root with a subcommand, mandatory, help on empty input disabled. -/
def c4_cmd : Command :=
  Command.mk "root" true false default_help_opts []
    [("sub", Command.mk "sub" true true default_help_opts [{ id := "x" }] [])]

/-- C5: a Set argument `--xx` requiring exactly two values. -/
def c5_arg : ArgData :=
  { id := "x", long := some "--xx", nargs := Nargs.exact 2 }

def c5_cmd : Command :=
  Command.mk "c5" true true default_help_opts [c5_arg] []

/-- C6: the spec scenario `--sources` with arity range(1,3). -/
def c6_arg : ArgData :=
  { id := "sources", long := some "--sources", nargs := Nargs.rng 1 3 }

def c6_cmd : Command :=
  Command.mk "c6" true true default_help_opts [c6_arg] []

/-- C7: a Count argument with short alias `-v`. -/
def c7_arg : ArgData :=
  { id := "verbose", long := some "--verbose", short := some "-v",
    action := ArgAction.count, nargs := Nargs.exact 0 }

def c7_cmd : Command :=
  Command.mk "c7" true true default_help_opts [c7_arg] []

/-- C7 counterexample: same Count argument, but `-v` is a help trigger. -/
def c7_help_cmd : Command :=
  Command.mk "c7h" true true ["-v"] [c7_arg] []

def c7_tree : ParsedCommand :=
  ParsedCommand.mk "c7" [("verbose", ⟨PyVal.int 3, ArgAction.count⟩)] Option.none

/-- C8 counterexample: `--opt`'s inline value coincides with a subcommand
name; the split form makes discovery enter the subcommand. -/
def c8_cmd : Command :=
  Command.mk "c8root" false true default_help_opts [{ id := "opt", long := some "--opt" }]
    [("sub", Command.mk "sub" true false default_help_opts [{ id := "x" }] [])]

/-- C8 witness command: no subcommands, one Set argument `--num`. -/
def c8w_cmd : Command :=
  Command.mk "c8w" true true default_help_opts [{ id := "num", long := some "--num" }] []

/-- C2: the result tree of supplying the Append argument twice. -/
def c2_tree : ParsedCommand :=
  ParsedCommand.mk "c2"
    [("tag", ⟨PyVal.tup [PyVal.str "a", PyVal.str "b"], ArgAction.append⟩)] Option.none

/-- C9: a named Set argument whose default lies outside its allowed set. -/
def c9_m_arg : ArgData :=
  { id := "m", long := some "--m", default := PyVal.str "zzz",
    valid_values := some [PyVal.str "a"] }

/-- C9: defaults lying outside the allowed-value sets. -/
def c9_cmd : Command :=
  Command.mk "c9" true true default_help_opts
    [ { id := "p1" },
      { id := "p2", default := PyVal.int 7, valid_values := some [PyVal.str "q"] },
      c9_m_arg ] []

def c9_tree : ParsedCommand :=
  ParsedCommand.mk "c9"
    [ ("m", ⟨PyVal.str "zzz", ArgAction.set⟩),
      ("p1", ⟨PyVal.str "x", ArgAction.set⟩),
      ("p2", ⟨PyVal.int 7, ArgAction.set⟩) ] Option.none

/-- C10 witness: a result node holding a flag, a count and a tuple value. -/
def c10_pc : ParsedCommand :=
  ParsedCommand.mk "w"
    [ ("f", ⟨PyVal.bool true, ArgAction.storeTrue⟩),
      ("c", ⟨PyVal.int 2, ArgAction.count⟩),
      ("many", ⟨PyVal.tup [PyVal.str "a", PyVal.str "b"], ArgAction.set⟩) ] Option.none

-- ===========================================================
-- Helper lemmas
-- ===========================================================

theorem lookup_mem {β : Type} (a : String) (b : β) :
    ∀ l : List (String × β), List.lookup a l = some b → (a, b) ∈ l := by
  intro l
  induction l with
  | nil => intro h; simp [List.lookup] at h
  | cons kv rest ih =>
    intro h
    obtain ⟨k, v⟩ := kv
    simp only [List.lookup] at h
    cases hak : (a == k) with
    | true =>
      rw [hak] at h
      simp only [Option.some.injEq] at h
      have hk : a = k := by simpa using hak
      simp [hk, h]
    | false =>
      rw [hak] at h
      exact List.mem_cons_of_mem _ (ih h)

theorem ignores_help {ws : List String} {c : Command} (h : IgnoresTokens ws c)
    {w : String} (hw : w ∈ ws) : c.help_options.contains w = false := by
  cases h with
  | mk nm ms nh ho ar subs h1 h2 h3 => exact h1 w hw

theorem ignores_lookup {ws : List String} {c : Command} (h : IgnoresTokens ws c)
    {w : String} (hw : w ∈ ws) : List.lookup w c.subcommands = Option.none := by
  cases h with
  | mk nm ms nh ho ar subs h1 h2 h3 => exact h2 w hw

theorem ignores_sub {ws : List String} {c : Command} (h : IgnoresTokens ws c)
    {a : String} {sub : Command} (hs : List.lookup a c.subcommands = some sub) :
    IgnoresTokens ws sub := by
  cases h with
  | mk nm ms nh ho ar subs h1 h2 h3 =>
    exact h3 (a, sub) (lookup_mem a sub subs (by simpa [Command.subcommands] using hs))

theorem expand_args_append (s t : List String) :
    expand_args (s ++ t) = expand_args s ++ expand_args t := by
  induction s with
  | nil => simp [expand_args]
  | cons a rest ih => simp [expand_args, ih]

-- ===========================================================
-- C1
-- ===========================================================

/-- C1: the claim says `parse_from` hands a `ClapyParsingError` to its
caller as a typed result without terminating the process.  The code's
inner pipeline does raise the typed error (first conjunct), but the
`except ClapyParsingError` handler in `parse_from` prints the message and
calls `sys.exit()` (the `raise e` is commented out), so the process is
terminated instead: the outcome is `errorExit`, not a value or exception
visible to the caller (second conjunct).  This contradicts the repository's
own tests, which wrap `parse_from` in `pytest.raises(ClapyParsingError)`. -/
theorem c1_parsing_error_exits_process :
    Command.parse_from_inner c1_cmd ["--num", "1", "--num", "2"]
      = Except.error (PErr.perr "Repeated argument '--num'.")
    ∧ Command.parse_from c1_cmd ["--num", "1", "--num", "2"]
      = ParseOutcome.errorExit "Repeated argument '--num'." :=
  ⟨rfl, rfl⟩

-- ===========================================================
-- C6
-- ===========================================================

/-- C6: for the named Set argument `--sources` with arity range(1,3)
(min 1, max 3), the shared consumption primitive applied after the alias
in `["--sources","a","b","c","d"]` consumes exactly `a`, `b`, `c` and
leaves `d` in the segment, and the full parse then fails with the
ParsingError naming `d` as an unknown extra argument. -/
theorem c6_range_arity_consumes_three_then_unknown_extra :
    parse_and_consume_values ["--sources", "a", "b", "c", "d"] 1 c6_arg "--sources"
      = Except.ok (["a", "b", "c"], ["--sources", "d"])
    ∧ nargs_bounds c6_arg.nargs = (1, some 3)
    ∧ Command.parse_from c6_cmd ["--sources", "a", "b", "c", "d"]
      = ParseOutcome.errorExit "Unknown extra arguments: 'd'." :=
  ⟨rfl, rfl, rfl⟩

-- ===========================================================
-- C9
-- ===========================================================

/-- C9: a Set or Append argument with a non-None default that is never
supplied stores the default object itself.  The statement is universal
over the argument definition, so it holds for every `value_conv` and
every `valid_values` set: neither is consulted on the default path.
The first conjunct is the named-argument default branch, the second the
positional one (positional arguments carry the Set action).  The closed
conjuncts run the full parse on a command whose defaults lie outside
their allowed-value sets: the parse succeeds and the accessors return the
default objects unchanged. -/
theorem c9_unsupplied_default_is_stored_unvalidated (ad : ArgData)
    (h1 : ad.action = ArgAction.set ∨ ad.action = ArgAction.append)
    (h2 : ad.default.is_none = false) :
    default_parsed_arg ad = Except.ok ⟨ad.default, ad.action⟩
    ∧ (ad.action = ArgAction.set →
        assemble_one ad Option.none = Except.ok ⟨ad.default, ad.action⟩)
    ∧ Command.parse_from c9_cmd ["x"] = ParseOutcome.ok c9_tree
    ∧ c9_tree.get_one "p2" = Except.ok (some (PyVal.int 7))
    ∧ c9_tree.get_one "m" = Except.ok (some (PyVal.str "zzz")) := by
  refine ⟨?_, ?_, rfl, rfl, rfl⟩
  · rcases h1 with h | h <;> simp [default_parsed_arg, h, h2]
  · intro h
    have hb : (ArgAction.set != ArgAction.set) = false := by decide
    simp [assemble_one, h, h2, hb]

theorem c9_unsupplied_default_is_stored_unvalidated_witness :
    default_parsed_arg c9_m_arg = Except.ok ⟨PyVal.str "zzz", ArgAction.set⟩
    ∧ assemble_one c9_m_arg Option.none = Except.ok ⟨PyVal.str "zzz", ArgAction.set⟩
    ∧ Command.parse_from c9_cmd ["x"] = ParseOutcome.ok c9_tree := by
  have h := c9_unsupplied_default_is_stored_unvalidated c9_m_arg (Or.inl rfl) rfl
  exact ⟨h.1, h.2.1 rfl, h.2.2.1⟩

-- ===========================================================
-- C10
-- ===========================================================

/-- C10: the accessor contract of `ParsedCommand`.  For a stored argument
with a StoreTrue/StoreFalse/Count action, `get_one` and `get_many` fail
(their assertion rejects the action) instead of returning a value;
`get_flag` fails for any action other than StoreTrue/StoreFalse and
`get_count` for any action other than Count; `get_any` returns the stored
value with no check; and for an id that was never parsed every accessor
returns None instead of failing. -/
theorem c10_accessor_contract (pc : ParsedCommand) (id : String) :
    (∀ pa, List.lookup id pc.parsed_arguments = some pa →
      ((pa.action = ArgAction.storeTrue ∨ pa.action = ArgAction.storeFalse ∨
          pa.action = ArgAction.count) →
        (∃ m, pc.get_one id = Except.error m) ∧
        (∀ force, ∃ m, pc.get_many id force = Except.error m)) ∧
      ((pa.action ≠ ArgAction.storeTrue ∧ pa.action ≠ ArgAction.storeFalse) →
        ∃ m, pc.get_flag id = Except.error m) ∧
      (pa.action ≠ ArgAction.count → ∃ m, pc.get_count id = Except.error m) ∧
      pc.get_any id = some pa.value) ∧
    (List.lookup id pc.parsed_arguments = Option.none →
      pc.get_any id = Option.none ∧ pc.get_one id = Except.ok Option.none ∧
      (∀ force, pc.get_many id force = Except.ok Option.none) ∧
      pc.get_flag id = Except.ok Option.none ∧
      pc.get_count id = Except.ok Option.none) := by
  constructor
  · intro pa hpa
    refine ⟨?_, ?_, ?_, ?_⟩
    · intro hact
      have hset : (pa.action == ArgAction.set) = false := by
        rcases hact with h | h | h <;> simp [h]
      have happ : (pa.action == ArgAction.append) = false := by
        rcases hact with h | h | h <;> simp [h]
      constructor
      · exact ⟨"AssertionError", by simp [ParsedCommand.get_one, hpa, hset, happ]⟩
      · intro force
        exact ⟨"AssertionError", by simp [ParsedCommand.get_many, hpa, hset, happ]⟩
    · intro hact
      refine ⟨"AssertionError", ?_⟩
      have h1 : (pa.action == ArgAction.storeFalse) = false := by
        simp [hact.2]
      have h2 : (pa.action == ArgAction.storeTrue) = false := by
        simp [hact.1]
      simp [ParsedCommand.get_flag, hpa, h1, h2]
    · intro hact
      refine ⟨"AssertionError", ?_⟩
      have h1 : (pa.action == ArgAction.count) = false := by
        simp [hact]
      simp [ParsedCommand.get_count, hpa, h1]
    · simp [ParsedCommand.get_any, hpa]
  · intro hnone
    exact ⟨by simp [ParsedCommand.get_any, hnone],
      by simp [ParsedCommand.get_one, hnone],
      fun force => by simp [ParsedCommand.get_many, hnone],
      by simp [ParsedCommand.get_flag, hnone],
      by simp [ParsedCommand.get_count, hnone]⟩

theorem c10_accessor_contract_witness :
    (∃ m, c10_pc.get_one "f" = Except.error m) ∧
    (∃ m, c10_pc.get_many "f" true = Except.error m) ∧
    (∃ m, c10_pc.get_flag "many" = Except.error m) ∧
    (∃ m, c10_pc.get_count "f" = Except.error m) ∧
    c10_pc.get_any "f" = some (PyVal.bool true) ∧
    c10_pc.get_one "absent" = Except.ok Option.none := by
  have hf := (c10_accessor_contract c10_pc "f").1 ⟨PyVal.bool true, ArgAction.storeTrue⟩ rfl
  have hm := (c10_accessor_contract c10_pc "many").1
    ⟨PyVal.tup [PyVal.str "a", PyVal.str "b"], ArgAction.set⟩ rfl
  have ha := (c10_accessor_contract c10_pc "absent").2 rfl
  refine ⟨(hf.1 (Or.inl rfl)).1, (hf.1 (Or.inl rfl)).2 true, ?_, ?_, hf.2.2.2, ha.2.1⟩
  · exact hm.2.1 ⟨by decide, by decide⟩
  · exact hf.2.2.1 (by decide)

-- ===========================================================
-- C4
-- ===========================================================

/-- C4 (amended): for a command with subcommands and
`mandatory_subcommand = true`, parsing an empty token list shows the help
when `no_args_requests_help` is set, and otherwise fails with the
ParsingError that names the command ("No arguments supplied for command
...").  The empty-segment check fires before the mandatory-subcommand
check, so the message does not list the available subcommand options as
the original claim stated. -/
theorem c4_empty_input_no_args_error (c : Command)
    (hsubs : c.subcommands ≠ []) (hmand : c.mandatory_subcommand = true) :
    Command.parse_from c [] =
      (if c.no_args_requests_help then ParseOutcome.helpExit c.name
       else ParseOutcome.errorExit (no_args_msg c.name)) := by
  obtain ⟨nm, ms, nh, ho, ar, subs⟩ := c
  cases nh <;> rfl

/-- C4 counterexample: with help disabled the parse fails, but the error
message is "No arguments supplied for command 'root'.", which does not
mention the available subcommand `sub` at all, contradicting "a
ParsingError whose message names the available subcommand options". -/
theorem c4_counterexample_message_lacks_options :
    Command.parse_from c4_cmd [] =
      ParseOutcome.errorExit "No arguments supplied for command 'root'."
    ∧ mentions "sub" "No arguments supplied for command 'root'." = false
    ∧ "No arguments supplied for command 'root'."
        ≠ mandatory_msg "root" "sub" := by
  refine ⟨rfl, by decide, by decide⟩

theorem c4_empty_input_no_args_error_witness :
    Command.parse_from c4_cmd [] =
      ParseOutcome.errorExit "No arguments supplied for command 'root'." := by
  have h := c4_empty_input_no_args_error c4_cmd (by simp [c4_cmd, Command.subcommands]) rfl
  exact h.trans rfl

-- ===========================================================
-- C5
-- ===========================================================

theorem consume_loop_insufficient (minN : Nat) (maxN : Option Nat) (nm : String)
    (hmax : ∀ m, maxN = some m → minN ≤ m) :
    ∀ (pre acc : List String) (t : String) (rest : List String),
      (∀ x ∈ pre, is_named_arg x = false ∧ x ≠ "--") →
      (is_named_arg t = true ∨ t = "--") →
      acc.length + pre.length < minN →
      consume_loop minN maxN nm acc (pre ++ t :: rest) =
        Except.error (PErr.perr (missing_values_msg nm (acc.length + pre.length) minN)) := by
  intro pre
  induction pre with
  | nil =>
    intro acc t rest hpre ht hlt
    have hc : (is_named_arg t || t == "--") = true := by
      rcases ht with h | h <;> simp [h]
    have hn : ¬ (minN ≤ acc.length) := by
      simp only [List.length_nil, Nat.add_zero] at hlt
      omega
    simp [consume_loop, hc, hn]
  | cons x pre' ih =>
    intro acc t rest hpre ht hlt
    have hx := hpre x (by simp)
    have hb : (x == "--") = false := by
      simp [hx.2]
    have hlen : acc.length + pre'.length + 1 < minN := by
      simp only [List.length_cons] at hlt
      omega
    have hmaxne : (maxN == some (acc.length + 1)) = false := by
      cases maxN with
      | none => simp
      | some m =>
        have hm := hmax m rfl
        have hne : m ≠ acc.length + 1 := by omega
        simp [hne]
    have step : consume_loop minN maxN nm acc ((x :: pre') ++ t :: rest) =
        consume_loop minN maxN nm (acc ++ [x]) (pre' ++ t :: rest) := by
      simp [consume_loop, hx.1, hb, hmaxne]
    rw [step, ih (acc ++ [x]) t rest (fun y hy => hpre y (by simp [hy])) ht
      (by simp only [List.length_append, List.length_cons, List.length_nil]; omega)]
    have harith : (acc ++ [x]).length + pre'.length = acc.length + (x :: pre').length := by
      simp only [List.length_append, List.length_cons, List.length_nil]
      omega
    rw [harith]

/-- C5 (amended): for a Set or Append argument, the shared consumption
primitive fails with the insufficient-values ParsingError exactly when a
named token or the `--` marker is reached before `min` values were
gathered (provided a bounded maximum is at least the minimum, which holds
for every arity form the builder produces).  The original claim also
asserted a failure when the segment simply ends with fewer than `min`
values; the counterexample shows that case succeeds silently instead. -/
theorem c5_insufficient_values_on_named_or_marker (ad : ArgData) (nm : String)
    (args : List String) (start : Nat) (pre : List String) (t : String)
    (rest : List String)
    (hact : ad.action = ArgAction.set ∨ ad.action = ArgAction.append)
    (hsplit : args.drop start = pre ++ t :: rest)
    (hpre : ∀ x ∈ pre, is_named_arg x = false ∧ x ≠ "--")
    (ht : is_named_arg t = true ∨ t = "--")
    (hmin : pre.length < (nargs_bounds ad.nargs).1)
    (hmax : ∀ m, (nargs_bounds ad.nargs).2 = some m → (nargs_bounds ad.nargs).1 ≤ m) :
    parse_and_consume_values args start ad nm =
      Except.error (PErr.perr (missing_values_msg nm pre.length (nargs_bounds ad.nargs).1)) := by
  have hloop := consume_loop_insufficient (nargs_bounds ad.nargs).1
    (nargs_bounds ad.nargs).2 nm hmax pre [] t rest hpre ht (by simpa using hmin)
  rcases hact with h | h <;>
    simp [parse_and_consume_values, consume_values_only, h, hsplit, hloop]

/-- C5 counterexample: `--xx` requires at least two values (min 2), yet
when the segment ends right after a single value the parse succeeds with
the lone value instead of raising the insufficient-values ParsingError. -/
theorem c5_counterexample_segment_end_succeeds :
    Command.parse_from c5_cmd ["--xx", "a"] =
      ParseOutcome.ok
        (ParsedCommand.mk "c5" [("x", ⟨PyVal.str "a", ArgAction.set⟩)] Option.none)
    ∧ (nargs_bounds c5_arg.nargs).1 = 2 :=
  ⟨rfl, rfl⟩

theorem c5_insufficient_values_witness :
    parse_and_consume_values ["--xx", "a", "-q", "b"] 1 c5_arg "--xx" =
      Except.error (PErr.perr
        "Missing argument values for '--xx'. Received 1, expected at least 2.") := by
  have h := c5_insufficient_values_on_named_or_marker c5_arg "--xx"
    ["--xx", "a", "-q", "b"] 1 ["a"] "-q" ["b"] (Or.inl rfl) rfl (by decide)
    (Or.inl (by decide)) (by decide)
    (by intro m hm; simp [c5_arg, nargs_bounds] at hm ⊢; omega)
  exact h

-- ===========================================================
-- C2
-- ===========================================================

/-- C2 (amended): an Append argument supplied twice accumulates, but only
when both occurrences use the same alias.  The general conjunct shows the
per-alias processing of two accumulated value groups equals that of one
occurrence carrying the concatenated (encounter-order flattened) values —
in particular no repeated-argument error is raised for Append.  The
closed conjuncts run the full parse: two `--tag` occurrences yield one
parsed value holding both groups flattened in encounter order.  When the
two occurrences use different aliases of the same argument the id-based
bookkeeping raises "Repeated argument" even for Append (counterexample). -/
theorem c2_append_twice_same_alias_accumulates (ad : ArgData) (al : String)
    (g1 g2 : List String) (hact : ad.action = ArgAction.append) :
    collect_parsed_arg al ad [g1, g2] = collect_parsed_arg al ad [g1 ++ g2]
    ∧ Command.parse_from c2_cmd ["--tag", "a", "--tag", "b"] = ParseOutcome.ok c2_tree
    ∧ c2_tree.get_many "tag" =
        Except.ok (some (PyVal.tup [PyVal.str "a", PyVal.str "b"])) := by
  refine ⟨?_, rfl, rfl⟩
  simp [collect_parsed_arg, hact]

/-- C2 counterexample: the same Append argument supplied once as `-t` and
once as `--tag` does not accumulate; the parse fails with the
repeated-argument ParsingError. -/
theorem c2_counterexample_mixed_aliases_fail :
    Command.parse_from c2_cmd ["-t", "a", "--tag", "b"] =
      ParseOutcome.errorExit "Repeated argument '--tag'." := rfl

theorem c2_append_twice_same_alias_accumulates_witness :
    collect_parsed_arg "--tag" c2_arg [["a"], ["b"]] =
      collect_parsed_arg "--tag" c2_arg [["a"] ++ ["b"]]
    ∧ Command.parse_from c2_cmd ["--tag", "a", "--tag", "b"] = ParseOutcome.ok c2_tree :=
  ⟨(c2_append_twice_same_alias_accumulates c2_arg "--tag" ["a"] ["b"] rfl).1,
   (c2_append_twice_same_alias_accumulates c2_arg "--tag" ["a"] ["b"] rfl).2.1⟩

-- ===========================================================
-- C3
-- ===========================================================

/-- C3 (amended): a Set argument supplied twice fails.  Via the same alias
the repeated-argument check fires before conversion or allowed-value
checking (first conjunct, for any accumulated groups).  Via two different
aliases of the same argument, the second alias processed hits the
popped-id check and raises the repeated-argument error, provided the
first occurrence was processed cleanly (second conjunct); if the first
occurrence's conversion fails, that ParsingError is raised instead — see
the counterexample, matching the validation-order caveat in the spec's
design notes.  The closed conjuncts exercise both shapes end to end. -/
theorem c3_set_twice_fails_repeated (ad ad2 : ArgData) (al al2 : String)
    (alias_map ids_map : List (String × ArgData))
    (groups g2s : List (List String)) (g1 : List String)
    (parsed : List (String × ParsedArg)) (pa : ParsedArg) :
    (ad.action = ArgAction.set → 2 ≤ groups.length →
      collect_parsed_arg al ad groups = Except.error (PErr.perr (repeated_arg_msg al)))
    ∧ (List.lookup al alias_map = some ad →
       List.lookup al2 alias_map = some ad2 →
       ad2.id = ad.id →
       (List.lookup ad.id ids_map).isNone = false →
       List.lookup ad.id (dict_pop ids_map ad.id) = Option.none →
       collect_parsed_arg al ad [g1] = Except.ok pa →
       process_consumed alias_map [(al, [g1]), (al2, g2s)] ids_map parsed =
         Except.error (PErr.perr (repeated_arg_msg al2)))
    ∧ Command.parse_from c3_cmd ["--num", "1", "--num", "2"] =
        ParseOutcome.errorExit "Repeated argument '--num'."
    ∧ Command.parse_from c3_cmd ["-n", "1", "--num", "2"] =
        ParseOutcome.errorExit "Repeated argument '--num'." := by
  refine ⟨?_, ?_, rfl, rfl⟩
  · intro hact hlen
    have hgt : 1 < groups.length := by omega
    simp [collect_parsed_arg, hact, hgt]
  · intro hal hal2 hid hpresent hpopped hcollect
    simp only [process_consumed, hal, hpresent, hcollect, hal2, hid, hpopped]
    simp [hpopped]

/-- C3 counterexample: the same Set argument supplied once as `-n` and
once as `--num`, with `x` failing the int converter.  The parse fails,
but with the wrong-value ParsingError for the first occurrence, not the
repeated-argument ParsingError the claim requires. -/
theorem c3_counterexample_conversion_preempts_repeated :
    Command.parse_from c3_cmd ["-n", "x", "--num", "3"] =
      ParseOutcome.errorExit "Wrong value type for argument '-n'. Wrong values: x."
    ∧ "Wrong value type for argument '-n'. Wrong values: x." ≠ repeated_arg_msg "-n"
    ∧ "Wrong value type for argument '-n'. Wrong values: x." ≠ repeated_arg_msg "--num" :=
  ⟨rfl, by decide, by decide⟩

theorem c3_set_twice_fails_repeated_witness :
    collect_parsed_arg "--num" c3_arg [["1"], ["2"]] =
      Except.error (PErr.perr (repeated_arg_msg "--num"))
    ∧ process_consumed [("--num", c3_arg), ("-n", c3_arg)]
        [("-n", [["1"]]), ("--num", [["2"]])] [("num", c3_arg)] [] =
      Except.error (PErr.perr (repeated_arg_msg "--num"))
    ∧ Command.parse_from c3_cmd ["--num", "1", "--num", "2"] =
        ParseOutcome.errorExit "Repeated argument '--num'." := by
  have h := c3_set_twice_fails_repeated c3_arg c3_arg "-n" "--num"
    [("--num", c3_arg), ("-n", c3_arg)] [("num", c3_arg)]
    [["1"], ["2"]] [["2"]] ["1"] [] ⟨PyVal.int 1, ArgAction.set⟩
  refine ⟨?_, ?_, h.2.2.1⟩
  · have h2 := c3_set_twice_fails_repeated c3_arg c3_arg "--num" "--num"
      [("--num", c3_arg), ("-n", c3_arg)] [("num", c3_arg)]
      [["1"], ["2"]] [["2"]] ["1"] [] ⟨PyVal.int 1, ArgAction.set⟩
    exact h2.1 rfl (by decide)
  · exact h.2.1 rfl rfl rfl rfl rfl rfl

-- ===========================================================
-- Discovery congruence machinery (for C7 and C8)
-- ===========================================================

theorem discover_loop_named_help (earlier : List Command) (last : Command)
    (lists : List (List String)) (seg : List String) (a : String)
    (rest : List String) (hn : is_named_arg a = true)
    (hh : last.help_options.contains a = true) :
    discover_loop earlier last lists seg (a :: rest) =
      Except.error (PErr.help last.name) := by
  have hmem : a ∈ last.help_options := by simpa using hh
  simp [discover_loop, hn, hmem]

theorem discover_loop_named_skip (earlier : List Command) (last : Command)
    (lists : List (List String)) (seg : List String) (a : String)
    (rest : List String) (hn : is_named_arg a = true)
    (hh : last.help_options.contains a = false) :
    discover_loop earlier last lists seg (a :: rest) =
      discover_loop earlier last lists (seg ++ [a]) rest := by
  have hmem : a ∉ last.help_options := by simpa using hh
  simp [discover_loop, hn, hmem]

theorem discover_loop_pos_sub (earlier : List Command) (last : Command)
    (lists : List (List String)) (seg : List String) (a : String)
    (rest : List String) (sub : Command) (hn : is_named_arg a = false)
    (hsub : List.lookup a last.subcommands = some sub) :
    discover_loop earlier last lists seg (a :: rest) =
      discover_loop (earlier ++ [last]) sub (lists ++ [seg]) [] rest := by
  simp [discover_loop, hn, hsub]

theorem discover_loop_pos_skip (earlier : List Command) (last : Command)
    (lists : List (List String)) (seg : List String) (a : String)
    (rest : List String) (hn : is_named_arg a = false)
    (hsub : List.lookup a last.subcommands = Option.none) :
    discover_loop earlier last lists seg (a :: rest) =
      discover_loop earlier last lists (seg ++ [a]) rest := by
  simp [discover_loop, hn, hsub]

theorem discover_congr :
    ∀ (toks : List String) (earlier : List Command) (last : Command)
      (l1 l2 : List (List String)) (s1 s2 : List String),
      l1.map expand_args = l2.map expand_args →
      expand_args s1 = expand_args s2 →
      discover_rel (discover_loop earlier last l1 s1 toks)
        (discover_loop earlier last l2 s2 toks) := by
  intro toks
  induction toks with
  | nil =>
    intro earlier last l1 l2 s1 s2 hl hs
    simp [discover_loop, discover_rel, hl, hs]
  | cons a rest ih =>
    intro earlier last l1 l2 s1 s2 hl hs
    by_cases hn : is_named_arg a = true
    · by_cases hh : last.help_options.contains a = true
      · rw [discover_loop_named_help earlier last l1 s1 a rest hn hh,
            discover_loop_named_help earlier last l2 s2 a rest hn hh]
        simp [discover_rel]
      · have hh' : last.help_options.contains a = false := by simpa using hh
        rw [discover_loop_named_skip earlier last l1 s1 a rest hn hh',
            discover_loop_named_skip earlier last l2 s2 a rest hn hh']
        exact ih earlier last l1 l2 (s1 ++ [a]) (s2 ++ [a]) hl
          (by rw [expand_args_append, expand_args_append, hs])
    · have hn' : is_named_arg a = false := by simpa using hn
      cases hsub : List.lookup a last.subcommands with
      | some sub =>
        rw [discover_loop_pos_sub earlier last l1 s1 a rest sub hn' hsub,
            discover_loop_pos_sub earlier last l2 s2 a rest sub hn' hsub]
        exact ih (earlier ++ [last]) sub (l1 ++ [s1]) (l2 ++ [s2]) [] []
          (by simp [hl, hs]) rfl
      | none =>
        rw [discover_loop_pos_skip earlier last l1 s1 a rest hn' hsub,
            discover_loop_pos_skip earlier last l2 s2 a rest hn' hsub]
        exact ih earlier last l1 l2 (s1 ++ [a]) (s2 ++ [a]) hl
          (by rw [expand_args_append, expand_args_append, hs])

theorem discover_steps (last : Command) :
    ∀ (y : List String) (earlier : List Command) (lists : List (List String))
      (seg : List String) (post : List String),
      (∀ w ∈ y, last.help_options.contains w = false) →
      (∀ w ∈ y, List.lookup w last.subcommands = Option.none) →
      discover_loop earlier last lists seg (y ++ post) =
        discover_loop earlier last lists (seg ++ y) post := by
  intro y
  induction y with
  | nil => intro earlier lists seg post h1 h2; simp
  | cons a yrest ih =>
    intro earlier lists seg post h1 h2
    have ha1 := h1 a (by simp)
    have ha2 := h2 a (by simp)
    have hrest1 : ∀ w ∈ yrest, last.help_options.contains w = false :=
      fun w hw => h1 w (by simp [hw])
    have hrest2 : ∀ w ∈ yrest, List.lookup w last.subcommands = Option.none :=
      fun w hw => h2 w (by simp [hw])
    have hstep : discover_loop earlier last lists seg ((a :: yrest) ++ post) =
        discover_loop earlier last lists (seg ++ [a]) (yrest ++ post) := by
      by_cases hn : is_named_arg a = true
      · exact discover_loop_named_skip earlier last lists seg a (yrest ++ post) hn ha1
      · have hn' : is_named_arg a = false := by simpa using hn
        exact discover_loop_pos_skip earlier last lists seg a (yrest ++ post) hn' ha2
    rw [hstep, ih earlier lists (seg ++ [a]) post hrest1 hrest2]
    simp

theorem discover_replace (X : String) (Y ws : List String)
    (hX : is_named_arg X = true) (hXw : X ∈ ws) (hYw : ∀ y ∈ Y, y ∈ ws)
    (hexp : expand_args [X] = expand_args Y) :
    ∀ (pre : List String) (post : List String) (earlier : List Command)
      (last : Command) (lists : List (List String)) (seg : List String),
      IgnoresTokens ws last →
      discover_rel (discover_loop earlier last lists seg (pre ++ X :: post))
        (discover_loop earlier last lists seg (pre ++ Y ++ post)) := by
  intro pre
  induction pre with
  | nil =>
    intro post earlier last lists seg hig
    have hXh : last.help_options.contains X = false := ignores_help hig hXw
    have hsteps := discover_steps last Y earlier lists seg post
      (fun w hw => ignores_help hig (hYw w hw))
      (fun w hw => ignores_lookup hig (hYw w hw))
    simp only [List.nil_append]
    rw [hsteps, discover_loop_named_skip earlier last lists seg X post hX hXh]
    exact discover_congr post earlier last lists lists (seg ++ [X]) (seg ++ Y) rfl
      (by rw [expand_args_append, expand_args_append, hexp])
  | cons a prest ih =>
    intro post earlier last lists seg hig
    have hl : (a :: prest) ++ X :: post = a :: (prest ++ X :: post) := by simp
    have hr : (a :: prest) ++ Y ++ post = a :: (prest ++ Y ++ post) := by simp
    rw [hl, hr]
    by_cases hn : is_named_arg a = true
    · by_cases hh : last.help_options.contains a = true
      · rw [discover_loop_named_help earlier last lists seg a _ hn hh,
            discover_loop_named_help earlier last lists seg a _ hn hh]
        simp [discover_rel]
      · have hh' : last.help_options.contains a = false := by simpa using hh
        rw [discover_loop_named_skip earlier last lists seg a _ hn hh',
            discover_loop_named_skip earlier last lists seg a _ hn hh']
        exact ih post earlier last lists (seg ++ [a]) hig
    · have hn' : is_named_arg a = false := by simpa using hn
      cases hsub : List.lookup a last.subcommands with
      | some sub =>
        rw [discover_loop_pos_sub earlier last lists seg a _ sub hn' hsub,
            discover_loop_pos_sub earlier last lists seg a _ sub hn' hsub]
        exact ih post (earlier ++ [last]) sub (lists ++ [seg]) [] (ignores_sub hig hsub)
      | none =>
        rw [discover_loop_pos_skip earlier last lists seg a _ hn' hsub,
            discover_loop_pos_skip earlier last lists seg a _ hn' hsub]
        exact ih post earlier last lists (seg ++ [a]) hig

theorem discover_path_eq (c : Command) (a1 a2 : List String)
    (h : discover_rel (discover_loop [] c [] [] a1) (discover_loop [] c [] [] a2)) :
    Command.discover_command_path c a1 = Command.discover_command_path c a2 := by
  unfold Command.discover_command_path
  cases h1 : discover_loop [] c [] [] a1 with
  | error e1 =>
    cases h2 : discover_loop [] c [] [] a2 with
    | error e2 =>
      rw [h1, h2] at h
      simp only [discover_rel] at h
      rw [h]
    | ok v2 =>
      rw [h1, h2] at h
      obtain ⟨ch2, l2⟩ := v2
      simp [discover_rel] at h
  | ok v1 =>
    obtain ⟨ch1, l1⟩ := v1
    cases h2 : discover_loop [] c [] [] a2 with
    | error e2 =>
      rw [h1, h2] at h
      simp [discover_rel] at h
    | ok v2 =>
      obtain ⟨ch2, l2⟩ := v2
      rw [h1, h2] at h
      simp only [discover_rel] at h
      obtain ⟨hc, hl⟩ := h
      rw [hc]
      dsimp only
      rw [hl]

theorem parse_from_eq_of_discover (c : Command) (a1 a2 : List String)
    (h : Command.discover_command_path c a1 = Command.discover_command_path c a2) :
    Command.parse_from c a1 = Command.parse_from c a2 := by
  unfold Command.parse_from Command.parse_from_inner
  rw [h]

-- ===========================================================
-- C7
-- ===========================================================

/-- C7 (amended): provided neither `-vvv` nor `-v` is a help trigger or a
subcommand name anywhere in the command tree, replacing the single token
`-vvv` by the three tokens `-v`, `-v`, `-v` anywhere in the token list
yields the same parse outcome (first conjunct, universal over commands
and surrounding tokens).  For the plain Count command with short alias
`-v`, parsing `["-vvv"]` yields a result tree whose `get_count` is 3
(closed conjuncts).  The original claim's unconditional form fails when
`-v` is a help trigger, and `get_count` returns the total occurrence
count, not necessarily 3, when more `-v` tokens are present — see the
counterexample. -/
theorem c7_short_expandable_equiv :
    (∀ (c : Command) (pre post : List String), IgnoresTokens ["-vvv", "-v"] c →
      Command.parse_from c (pre ++ "-vvv" :: post) =
        Command.parse_from c (pre ++ "-v" :: "-v" :: "-v" :: post))
    ∧ Command.parse_from c7_cmd ["-vvv"] = ParseOutcome.ok c7_tree
    ∧ c7_tree.get_count "verbose" = Except.ok (some (PyVal.int 3)) := by
  refine ⟨?_, rfl, rfl⟩
  intro c pre post hig
  apply parse_from_eq_of_discover
  apply discover_path_eq
  have h := discover_replace "-vvv" ["-v", "-v", "-v"] ["-vvv", "-v"]
    (by decide) (by simp) (by intro y hy; simp at hy; simp [hy]) (by decide)
    pre post [] c [] [] hig
  simpa using h

/-- C7 counterexample: two concrete failures of the claim as stated.
With `-v` among the help triggers, `["-vvv"]` parses to a result tree
while `["-v","-v","-v"]` shows help and exits, so the two are not
equivalent; and for the plain command, a token list containing `-vvv`
alongside one more `-v` yields `get_count` 4, not 3. -/
theorem c7_counterexample :
    (Command.parse_from c7_help_cmd ["-vvv"] = ParseOutcome.ok
        (ParsedCommand.mk "c7h" [("verbose", ⟨PyVal.int 3, ArgAction.count⟩)] Option.none)
      ∧ Command.parse_from c7_help_cmd ["-v", "-v", "-v"] = ParseOutcome.helpExit "c7h")
    ∧ (Command.parse_from c7_cmd ["-vvv", "-v"] = ParseOutcome.ok
        (ParsedCommand.mk "c7" [("verbose", ⟨PyVal.int 4, ArgAction.count⟩)] Option.none)
      ∧ (ParsedCommand.mk "c7" [("verbose", ⟨PyVal.int 4, ArgAction.count⟩)]
          Option.none).get_count "verbose" = Except.ok (some (PyVal.int 4))) :=
  ⟨⟨rfl, rfl⟩, rfl, rfl⟩

theorem c7_short_expandable_equiv_witness :
    Command.parse_from c7_cmd ["-vvv"] = Command.parse_from c7_cmd ["-v", "-v", "-v"] := by
  have hig : IgnoresTokens ["-vvv", "-v"] c7_cmd :=
    IgnoresTokens.mk "c7" true true default_help_opts [c7_arg] []
      (by decide) (by intro w hw; rfl) (by intro p hp; simp at hp)
  have h := c7_short_expandable_equiv.1 c7_cmd [] [] hig
  simpa using h

-- ===========================================================
-- C8
-- ===========================================================

/-- C8 (amended): `--opt=value` is equivalent to `--opt value` provided
the tokens are inert for discovery and expansion: the inline token is a
named token splitting at its first `=` into `[opt, value]`, neither
`opt` nor `value` is further expanded, and none of the three tokens is
a help trigger or (for the positional `value`) a subcommand name
anywhere in the tree.  Under those conditions the parse outcomes agree
for every command and every surrounding token list.  The original
unconditional claim fails when `value` names a subcommand of the
current command — see the counterexample. -/
theorem c8_inline_value_equiv (c : Command) (pre post : List String)
    (x opt val : String)
    (hx : is_named_arg x = true)
    (hsplit : expand_args [x] = [opt, val])
    (hopt : expand_args [opt] = [opt])
    (hval : expand_args [val] = [val])
    (hig : IgnoresTokens [x, opt, val] c) :
    Command.parse_from c (pre ++ x :: post) =
      Command.parse_from c (pre ++ opt :: val :: post) := by
  apply parse_from_eq_of_discover
  apply discover_path_eq
  have e1 : expand_one opt = [opt] := by simpa [expand_args] using hopt
  have e2 : expand_one val = [val] := by simpa [expand_args] using hval
  have hexp : expand_args [x] = expand_args [opt, val] := by
    rw [hsplit]
    simp [expand_args, e1, e2]
  have h := discover_replace x [opt, val] [x, opt, val]
    hx (by simp) (by intro y hy; simp at hy; rcases hy with h | h <;> simp [h])
    hexp pre post [] c [] [] hig
  simpa using h

/-- C8 counterexample: on a root command with subcommand `sub` and a named
argument `--opt`, the token `--opt=sub` parses to a result tree holding
`opt = "sub"`, while the split form `--opt sub` makes discovery treat
`sub` as a subcommand and the parse fails ("No arguments supplied for
command 'sub'."), so the two forms do not produce the same outcome. -/
theorem c8_counterexample_value_matches_subcommand :
    Command.parse_from c8_cmd ["--opt=sub"] = ParseOutcome.ok
      (ParsedCommand.mk "c8root" [("opt", ⟨PyVal.str "sub", ArgAction.set⟩)] Option.none)
    ∧ Command.parse_from c8_cmd ["--opt", "sub"] =
        ParseOutcome.errorExit "No arguments supplied for command 'sub'." :=
  ⟨rfl, rfl⟩

theorem c8_inline_value_equiv_witness :
    Command.parse_from c8w_cmd ["--num=5"] = Command.parse_from c8w_cmd ["--num", "5"] := by
  have hig : IgnoresTokens ["--num=5", "--num", "5"] c8w_cmd :=
    IgnoresTokens.mk "c8w" true true default_help_opts
      [{ id := "num", long := some "--num" }] []
      (by decide) (by intro w hw; rfl) (by intro p hp; simp at hp)
  have h := c8_inline_value_equiv c8w_cmd [] [] "--num=5" "--num" "5"
    (by decide) (by decide) (by decide) (by decide) hig
  simpa using h

end Clapy
